import Mathlib

/-!
Shallow embedding of the remote-control event translation in
`net/remotecontrol/src/remotecontrol/imp.rs` (the pipeline filter element)
and `net/webrtc/src/webrtcsink/remotecontrol.rs` (the standalone handler),
together with the shared enigo backend lifecycle, and proofs of the
specified properties.

Floating point fields of navigation structures are modelled by rationals,
which represent every finite f64 exactly; Rust `f64::trunc` / `as i32`
become explicit truncation toward zero with i32 saturation.  Panics
(`.expect` on a missing field) become an explicit `panicked` outcome, and
the results of backend calls are supplied by an oracle `bres` so that
control flow can be shown independent of backend failures.
-/

namespace RemoteCtl

/-- Mouse buttons used by the translator (`enigo::Button`). -/
inductive MButton
  | Left
  | Middle
  | Right
deriving DecidableEq

/-- Press/release direction (`enigo::Direction`). -/
inductive MDirection
  | Press
  | Release
deriving DecidableEq

/-- Scroll axis (`enigo::Axis`). -/
inductive MAxis
  | Horizontal
  | Vertical
deriving DecidableEq

/-- The key symbols produced by the translator: exactly the `enigo::Key`
variants appearing in the two source files, plus a single-scalar printable
key (`Key::Unicode`). -/
inductive Key
  | Backspace
  | Delete
  | Tab
  | Return
  | Shift
  | LShift
  | RShift
  | Control
  | LControl
  | RControl
  | Alt
  | Meta
  | CapsLock
  | Escape
  | Space
  | PageUp
  | PageDown
  | End
  | Home
  | LeftArrow
  | UpArrow
  | RightArrow
  | DownArrow
  | F1
  | F2
  | F3
  | F4
  | F5
  | F6
  | F7
  | F8
  | F9
  | F10
  | F11
  | F12
  | F13
  | F14
  | F15
  | F16
  | F17
  | F18
  | F19
  | F20
  | Unicode (c : Char)
deriving DecidableEq

/-- The validated input actions executed against the enigo backend:
`move_mouse`, `button`, `scroll`, `key`. -/
inductive InputAction
  | MouseMove (x y : Int)
  | MouseButton (b : MButton) (d : MDirection)
  | Scroll (axis : MAxis) (delta : Int)
  | KeyAct (k : Key) (d : MDirection)
deriving DecidableEq

/-- Truncation of a rational (exactly representing a finite f64) toward
zero, as performed by Rust `f64::trunc`: the quotient of numerator by
denominator under T-division. -/
def truncRat (q : ℚ) : Int := Int.tdiv q.num q.den

/-- Smallest i32 value. -/
def i32min : Int := -(2 ^ 31)

/-- Largest i32 value. -/
def i32max : Int := 2 ^ 31 - 1

/-- Rust `as i32` applied to a finite f64: truncate toward zero, then
saturate to the i32 range. -/
def f64AsI32 (q : ℚ) : Int := max i32min (min i32max (truncRat q))

/-- The closed named-key table, a literal transcription of the
`match key_str.as_str()` table that appears identically in
`RemoteControl::src_event` and `handle_remotecontrol_event`. -/
def keyFromName (s : String) : Option Key :=
  match s with
  | "Backspace" => some .Backspace
  | "Delete" => some .Delete
  | "Tab" => some .Tab
  | "Enter" => some .Return
  | "Shift" => some .Shift
  | "ShiftLeft" => some .LShift
  | "ShiftRight" => some .RShift
  | "Control" => some .Control
  | "ControlLeft" => some .LControl
  | "ControlRight" => some .RControl
  | "Alt" => some .Alt
  | "AltLeft" => some .Alt
  | "AltRight" => some .Alt
  | "Meta" => some .Meta
  | "MetaLeft" => some .Meta
  | "MetaRight" => some .Meta
  | "CapsLock" => some .CapsLock
  | "Escape" => some .Escape
  | "Space" => some .Space
  | "PageUp" => some .PageUp
  | "PageDown" => some .PageDown
  | "End" => some .End
  | "Home" => some .Home
  | "ArrowLeft" => some .LeftArrow
  | "ArrowUp" => some .UpArrow
  | "ArrowRight" => some .RightArrow
  | "ArrowDown" => some .DownArrow
  | "F1" => some .F1
  | "F2" => some .F2
  | "F3" => some .F3
  | "F4" => some .F4
  | "F5" => some .F5
  | "F6" => some .F6
  | "F7" => some .F7
  | "F8" => some .F8
  | "F9" => some .F9
  | "F10" => some .F10
  | "F11" => some .F11
  | "F12" => some .F12
  | "F13" => some .F13
  | "F14" => some .F14
  | "F15" => some .F15
  | "F16" => some .F16
  | "F17" => some .F17
  | "F18" => some .F18
  | "F19" => some .F19
  | "F20" => some .F20
  | _ => none

/-- Outcome of resolving a `key` string: a key symbol, or one of the two
decode errors of the fallback single-scalar path. -/
inductive KeyResolution
  | ok (k : Key)
  | emptyKey
  | multiCharacterKey
deriving DecidableEq

/-- Key-string resolution as both source files perform it: the named-key
table first, and in its wildcard arm the `chars()` iterator — no first
character is the empty-key error, a second character is the
multi-character error, exactly one scalar is a printable key. -/
def resolveKey (s : String) : KeyResolution :=
  match keyFromName s with
  | some k => .ok k
  | none =>
    match s.data with
    | [] => .emptyKey
    | [c] => .ok (.Unicode c)
    | _ :: _ :: _ => .multiCharacterKey

/-- The fields of a `GstNavigation` event structure that the two handlers
read via `structure.get`.  Each field is `none` when absent (or of the
wrong type, which `get` reports identically); `event` is the string
discriminator.  Float fields are modelled by rationals. -/
structure NavStructure where
  event : Option String
  pointer_x : Option ℚ
  pointer_y : Option ℚ
  button : Option Int
  delta_pointer_x : Option ℚ
  delta_pointer_y : Option ℚ
  key : Option String
deriving DecidableEq

/-- A pad event: a navigation event carrying its structure, or any other
kind of event (treated opaquely by both handlers). -/
inductive GstEvent
  | navigation (s : NavStructure)
  | other (tag : Nat)
deriving DecidableEq

/-- Error/warning log lines emitted on the failure paths of the handlers.
Routine debug/trace lines are not modelled. -/
inductive LogMsg
  | keyNotFound
  | emptyKey
  | multiCharacterKey
  | backendFailed
  | unhandledEvent
  | notNavigation
deriving DecidableEq

/-- How the filter's `src_event` returns: `consumed` is `return true`
before the final push, `forwarded` is falling through to
`self.sinkpad.push_event(event)`, and `panicked` is a failing `.expect`
(caught by `catch_panic_pad_function`, which makes the pad function
return `false`). -/
inductive SrcOutcome
  | consumed
  | forwarded
  | panicked
deriving DecidableEq

/-- The observable result of one `src_event` call: the backend actions
issued, in order; the control-flow outcome; and the failure logs. -/
structure SrcResult where
  actions : List InputAction
  outcome : SrcOutcome
  logs : List LogMsg
deriving DecidableEq

/-- `RemoteControl::src_event` of the filter element
(`net/remotecontrol/src/remotecontrol/imp.rs`), as a function of the
event and a backend-result oracle `bres` (`true` = the enigo call
returned `Ok`).  Field accesses via `.expect` yield `panicked` when the
field is missing; the scroll arm has no `return true` and so falls
through to the forwarding push at the end of the function. -/
def src_event (bres : InputAction → Bool) (e : GstEvent) : SrcResult :=
  match e with
  | .other _ => ⟨[], .forwarded, [.notNavigation]⟩
  | .navigation s =>
    match s.event with
    | none => ⟨[], .panicked, []⟩
    | some name =>
      if name = "mouse-move" then
        match s.pointer_x with
        | none => ⟨[], .panicked, []⟩
        | some x =>
          match s.pointer_y with
          | none => ⟨[], .panicked, []⟩
          | some y => ⟨[.MouseMove (f64AsI32 x) (f64AsI32 y)], .consumed, []⟩
      else if name = "mouse-button-press" ∨ name = "mouse-button-release" then
        match s.button with
        | none => ⟨[], .panicked, []⟩
        | some b =>
          if 1 ≤ b ∧ b ≤ 3 then
            ⟨[.MouseButton
                (if b = 1 then .Left else if b = 2 then .Middle else .Right)
                (if name = "mouse-button-press" then .Press else .Release)],
              .consumed, []⟩
          else ⟨[], .forwarded, []⟩
      else if name = "mouse-scroll" then
        match s.delta_pointer_x with
        | none => ⟨[], .panicked, []⟩
        | some dx =>
          match s.delta_pointer_y with
          | none => ⟨[], .panicked, []⟩
          | some dy =>
            ⟨(if f64AsI32 dx ≠ 0 then [.Scroll .Horizontal (f64AsI32 dx)] else []) ++
              (if f64AsI32 dy ≠ 0 then [.Scroll .Vertical (f64AsI32 dy)] else []),
              .forwarded, []⟩
      else if name = "key-press" ∨ name = "key-release" then
        match s.key with
        | none => ⟨[], .consumed, [.keyNotFound]⟩
        | some ks =>
          match resolveKey ks with
          | .emptyKey => ⟨[], .consumed, [.emptyKey]⟩
          | .multiCharacterKey => ⟨[], .consumed, [.multiCharacterKey]⟩
          | .ok k =>
            let a := InputAction.KeyAct k
              (if name = "key-press" then .Press else .Release)
            ⟨[a], .consumed, if bres a then [] else [.backendFailed]⟩
      else ⟨[], .forwarded, [.unhandledEvent]⟩

/-- How the standalone handler returns: a normal return, or a panic from
a failing `.expect` that propagates to the caller. -/
inductive HandleOutcome
  | returned
  | panicked
deriving DecidableEq

/-- The observable result of one `handle_remotecontrol_event` call. -/
structure HandleResult where
  actions : List InputAction
  outcome : HandleOutcome
  logs : List LogMsg
deriving DecidableEq

/-- `handle_remotecontrol_event` of the webrtcsink adapter
(`net/webrtc/src/webrtcsink/remotecontrol.rs`): same translation as the
filter, but every backend result is checked and logged as a warning on
failure, and there is no forward/consume distinction.  `.expect` on the
discriminator or on a required non-`key` field panics; a missing `key`
is logged and the function returns. -/
def handle_remotecontrol_event (bres : InputAction → Bool) (e : GstEvent) :
    HandleResult :=
  match e with
  | .other _ => ⟨[], .returned, [.notNavigation]⟩
  | .navigation s =>
    match s.event with
    | none => ⟨[], .panicked, []⟩
    | some name =>
      if name = "mouse-move" then
        match s.pointer_x with
        | none => ⟨[], .panicked, []⟩
        | some x =>
          match s.pointer_y with
          | none => ⟨[], .panicked, []⟩
          | some y =>
            let a := InputAction.MouseMove (f64AsI32 x) (f64AsI32 y)
            ⟨[a], .returned, if bres a then [] else [.backendFailed]⟩
      else if name = "mouse-button-press" ∨ name = "mouse-button-release" then
        match s.button with
        | none => ⟨[], .panicked, []⟩
        | some b =>
          if 1 ≤ b ∧ b ≤ 3 then
            let a := InputAction.MouseButton
              (if b = 1 then .Left else if b = 2 then .Middle else .Right)
              (if name = "mouse-button-press" then .Press else .Release)
            ⟨[a], .returned, if bres a then [] else [.backendFailed]⟩
          else ⟨[], .returned, []⟩
      else if name = "mouse-scroll" then
        match s.delta_pointer_x with
        | none => ⟨[], .panicked, []⟩
        | some dx =>
          match s.delta_pointer_y with
          | none => ⟨[], .panicked, []⟩
          | some dy =>
            let ax := if f64AsI32 dx ≠ 0 then
                [InputAction.Scroll .Horizontal (f64AsI32 dx)] else []
            let ay := if f64AsI32 dy ≠ 0 then
                [InputAction.Scroll .Vertical (f64AsI32 dy)] else []
            ⟨ax ++ ay, .returned,
              (ax.filter (fun a => !bres a)).map (fun _ => LogMsg.backendFailed) ++
                (ay.filter (fun a => !bres a)).map (fun _ => LogMsg.backendFailed)⟩
      else if name = "key-press" ∨ name = "key-release" then
        match s.key with
        | none => ⟨[], .returned, [.keyNotFound]⟩
        | some ks =>
          match resolveKey ks with
          | .emptyKey => ⟨[], .returned, [.emptyKey]⟩
          | .multiCharacterKey => ⟨[], .returned, [.multiCharacterKey]⟩
          | .ok k =>
            let a := InputAction.KeyAct k
              (if name = "key-press" then .Press else .Release)
            ⟨[a], .returned, if bres a then [] else [.backendFailed]⟩
      else ⟨[], .returned, [.unhandledEvent]⟩

/-- The observable result of `RemoteControl::sink_event`: the event pushed
to the src pad, the boolean returned to the caller, the backend actions
issued, and the info logs. -/
structure SinkEventResult where
  pushed : GstEvent
  ret : Bool
  actions : List InputAction
  loggedNavigation : Bool
deriving DecidableEq

/-- `RemoteControl::sink_event` of the filter element: it logs when the
event is a navigation event, then unconditionally pushes the very same
event to the src pad and returns `true`; no translation, no backend
call. -/
def sink_event (e : GstEvent) : SinkEventResult :=
  match e with
  | .navigation s => ⟨.navigation s, true, [], true⟩
  | .other t => ⟨.other t, true, [], false⟩

/-- `RemoteControl::sink_chain` of the filter element: pushes the received
buffer (modelled opaquely) to the src pad unchanged, issuing no backend
action; its flow return is the downstream push result. -/
def sink_chain (buffer : Nat) : Nat × List InputAction :=
  (buffer, [])

/-- The modifier keys released right after backend construction, in the
order of the source array. -/
def modifierKeys : List Key :=
  [.CapsLock, .Shift, .LShift, .RShift, .Control, .LControl, .RControl,
    .Alt, .Meta]

/-- The process-wide backend cell `GLOBAL_ENIGO` guarded by `INIT: Once`:
`none` before the first access, `some id` afterwards, where `id`
identifies the constructed instance. -/
structure EnigoGlobal where
  inst : Option Nat
deriving DecidableEq

/-- One call of the accessor `enigo()`: on the first call (cell empty) it
constructs an instance (identified by the fresh tag), issues a `Release`
for every modifier key in order — recording each per-key result from the
oracle `rres` without ever aborting the loop — and stores the instance;
on every later call it returns the stored instance untouched.  The result
is the new cell state, the instance returned to the caller, the number of
constructions performed, and the release attempts made. -/
def enigoAccess (rres : Key → Bool) (g : EnigoGlobal) (fresh : Nat) :
    EnigoGlobal × Nat × Nat × List (Key × Bool) :=
  match g.inst with
  | some id => (g, id, 0, [])
  | none =>
    (⟨some fresh⟩, fresh, 1, modifierKeys.map (fun k => (k, rres k)))

/-- A sequence of `n` accessor calls starting from cell state `g`,
returning the final state, the instances handed out in order, and the
total number of constructions performed. -/
def enigoRun (rres : Key → Bool) (g : EnigoGlobal) (fresh : Nat) :
    Nat → EnigoGlobal × List Nat × Nat
  | 0 => (g, [], 0)
  | n + 1 =>
    let r := enigoAccess rres g fresh
    let rest := enigoRun rres r.1 fresh n
    (rest.1, r.2.1 :: rest.2.1, r.2.2.1 + rest.2.2)

/-- Whether every field read through `.expect` for the event's
discriminator is present; the `key` field is excluded because both
handlers check it by matching on the `get` result instead. -/
def requiredFieldsPresent (e : GstEvent) : Bool :=
  match e with
  | .other _ => true
  | .navigation s =>
    match s.event with
    | none => false
    | some name =>
      if name = "mouse-move" then
        s.pointer_x.isSome && s.pointer_y.isSome
      else if name = "mouse-button-press" ∨ name = "mouse-button-release" then
        s.button.isSome
      else if name = "mouse-scroll" then
        s.delta_pointer_x.isSome && s.delta_pointer_y.isSome
      else true

/-- A backend oracle under which every enigo call succeeds. -/
def allOk : InputAction → Bool := fun _ => true

/-- A release oracle under which every modifier release fails. -/
def allFail : Key → Bool := fun _ => false

theorem truncRat_of_nonneg (q : ℚ) (h : 0 ≤ q) : truncRat q = ⌊q⌋ := by
  unfold truncRat
  rw [Rat.floor_def]
  exact Int.tdiv_eq_ediv (Rat.num_nonneg.mpr h) (Int.ofNat_nonneg q.den)

theorem truncRat_of_nonpos (q : ℚ) (h : q ≤ 0) : truncRat q = ⌈q⌉ := by
  have h1 : truncRat q = -truncRat (-q) := by
    unfold truncRat
    simp [Rat.neg_num, Int.neg_tdiv]
  rw [h1, truncRat_of_nonneg (-q) (by linarith), Int.floor_neg, neg_neg]

theorem f64AsI32_of_range (q : ℚ) (h1 : i32min ≤ truncRat q)
    (h2 : truncRat q ≤ i32max) : f64AsI32 q = truncRat q := by
  unfold f64AsI32
  rw [min_eq_right h2, max_eq_right h1]

theorem enigoRun_constructed (rres : Key → Bool) (id fresh : Nat) :
    ∀ n, enigoRun rres ⟨some id⟩ fresh n =
      (⟨some id⟩, List.replicate n id, 0) := by
  intro n
  induction n with
  | zero => rfl
  | succ m ih => simp [enigoRun, enigoAccess, ih, List.replicate]

/-- C4: the backend accessor constructs the enigo session at most once per
process — over any sequence of accessor calls starting from the empty
cell, exactly one construction happens and every caller receives the same
instance as the first — and the construction issues a `Release` attempt
for every modifier key in the source's list, in order, for every possible
pattern of per-key failures (a failed release never aborts the remaining
releases, witnessed by the all-failures oracle attempting the full
list). -/
theorem c4_backend_lifecycle :
    (∀ (rres : Key → Bool) (id fresh : Nat),
      enigoAccess rres ⟨some id⟩ fresh = (⟨some id⟩, id, 0, [])) ∧
    (∀ (rres : Key → Bool) (fresh : Nat),
      (enigoAccess rres ⟨none⟩ fresh).2.2.1 = 1 ∧
      (enigoAccess rres ⟨none⟩ fresh).2.2.2.map Prod.fst = modifierKeys) ∧
    (∀ (rres : Key → Bool) (fresh n : Nat),
      (enigoRun rres ⟨none⟩ fresh (n + 1)).2.2 = 1 ∧
      (enigoRun rres ⟨none⟩ fresh (n + 1)).2.1 =
        List.replicate (n + 1) fresh) ∧
    (enigoAccess allFail ⟨none⟩ 0).2.2.2.map Prod.fst = modifierKeys := by
  refine ⟨fun rres id fresh => rfl, fun rres fresh => ⟨rfl, ?_⟩,
    fun rres fresh n => ?_, ?_⟩
  · simp [enigoAccess, modifierKeys]
  · constructor
    · simp [enigoRun, enigoAccess, enigoRun_constructed]
    · simp [enigoRun, enigoAccess, enigoRun_constructed, List.replicate]
  · rfl

/-- C8: the left and right variants of Alt and of Meta collapse in the
named-key table (and hence in key resolution) to the unqualified Alt and
Meta symbols. -/
theorem c8_alt_meta_collapse :
    keyFromName "Alt" = some Key.Alt ∧
    keyFromName "AltLeft" = some Key.Alt ∧
    keyFromName "AltRight" = some Key.Alt ∧
    keyFromName "Meta" = some Key.Meta ∧
    keyFromName "MetaLeft" = some Key.Meta ∧
    keyFromName "MetaRight" = some Key.Meta ∧
    resolveKey "AltLeft" = resolveKey "Alt" ∧
    resolveKey "AltRight" = resolveKey "Alt" ∧
    resolveKey "MetaLeft" = resolveKey "Meta" ∧
    resolveKey "MetaRight" = resolveKey "Meta" := by
  refine ⟨rfl, rfl, rfl, rfl, rfl, rfl, rfl, rfl, rfl, rfl⟩

/-- C9: a `key-press` navigation event without a `key` field produces no
action, is logged via the key-not-found line, and both adapters return
normally: the filter consumes the event (returns `true`, no forwarding)
and the standalone handler returns; since both handlers are pure
functions of the event, later events are unaffected. -/
theorem c9_key_press_missing_key (bres : InputAction → Bool)
    (px py : Option ℚ) (b : Option Int) (dx dy : Option ℚ) :
    src_event bres
        (.navigation ⟨some "key-press", px, py, b, dx, dy, none⟩) =
      ⟨[], .consumed, [.keyNotFound]⟩ ∧
    handle_remotecontrol_event bres
        (.navigation ⟨some "key-press", px, py, b, dx, dy, none⟩) =
      ⟨[], .returned, [.keyNotFound]⟩ := by
  exact ⟨rfl, rfl⟩

/-- C10: on the sink pad (forward direction) every event — navigation
events included — is pushed unchanged to the src pad with no backend
action and the handler returns `true`, and every buffer is pushed through
unchanged with no backend action; translation happens only in
`src_event`. -/
theorem c10_sink_passthrough :
    (∀ e : GstEvent, (sink_event e).pushed = e ∧ (sink_event e).ret = true ∧
      (sink_event e).actions = []) ∧
    (∀ s : NavStructure, (sink_event (.navigation s)).loggedNavigation = true) ∧
    (∀ buffer : Nat, sink_chain buffer = (buffer, [])) := by
  refine ⟨fun e => ?_, fun s => rfl, fun buffer => rfl⟩
  cases e <;> exact ⟨rfl, rfl, rfl⟩

/-- C5: every mouse-move event with both coordinates present yields, in
both shapes, exactly one `MouseMove` whose coordinates are the f64
values truncated toward zero (floor for nonnegative values, ceiling for
nonpositive ones — not rounding), and in particular coordinates
`(3.9, -3.9)` become `MouseMove(3, -3)`. -/
theorem c5_mouse_move_truncation (bres : InputAction → Bool) (x y : ℚ)
    (b : Option Int) (dx dy : Option ℚ) (k : Option String) :
    (src_event bres
        (.navigation ⟨some "mouse-move", some x, some y, b, dx, dy, k⟩)).actions =
      [.MouseMove (f64AsI32 x) (f64AsI32 y)] ∧
    (handle_remotecontrol_event bres
        (.navigation ⟨some "mouse-move", some x, some y, b, dx, dy, k⟩)).actions =
      [.MouseMove (f64AsI32 x) (f64AsI32 y)] ∧
    (∀ q : ℚ, 0 ≤ q → truncRat q = ⌊q⌋) ∧
    (∀ q : ℚ, q ≤ 0 → truncRat q = ⌈q⌉) ∧
    f64AsI32 (mkRat 39 10) = 3 ∧ f64AsI32 (mkRat (-39) 10) = -3 := by
  refine ⟨rfl, rfl, truncRat_of_nonneg, truncRat_of_nonpos, by decide, by decide⟩

/-- Closed instance of C5 discharging its truncation-direction
hypotheses at `q = 39/10` and `q = -39/10`. -/
theorem c5_mouse_move_truncation_witness :
    (src_event allOk
        (.navigation ⟨some "mouse-move", some (mkRat 39 10),
          some (mkRat (-39) 10), none, none, none, none⟩)).actions =
      [.MouseMove 3 (-3)] ∧
    truncRat (mkRat 39 10) = ⌊(mkRat 39 10 : ℚ)⌋ ∧
    truncRat (mkRat (-39) 10) = ⌈(mkRat (-39) 10 : ℚ)⌉ := by
  have h := c5_mouse_move_truncation allOk (mkRat 39 10) (mkRat (-39) 10)
    none none none none
  refine ⟨?_, h.2.2.1 (mkRat 39 10) (by decide), h.2.2.2.1 (mkRat (-39) 10) (by decide)⟩
  rw [h.1]
  decide

/-- C6: every mouse-scroll event with both delta fields present emits, in
both shapes, exactly one `Scroll` per axis whose toward-zero-truncated
delta is nonzero — none, one, or two actions, horizontal first — and a
truncated delta of 0 contributes no action; deltas `(0, -5.2)` yield
exactly `[Scroll(Vertical, -5)]`. -/
theorem c6_scroll_actions (bres : InputAction → Bool)
    (px py : Option ℚ) (b : Option Int) (dx dy : ℚ) (k : Option String) :
    ((src_event bres
        (.navigation ⟨some "mouse-scroll", px, py, b, some dx, some dy, k⟩)).actions =
      (handle_remotecontrol_event bres
        (.navigation ⟨some "mouse-scroll", px, py, b, some dx, some dy, k⟩)).actions) ∧
    (f64AsI32 dx = 0 → f64AsI32 dy = 0 →
      (src_event bres
        (.navigation ⟨some "mouse-scroll", px, py, b, some dx, some dy, k⟩)).actions = []) ∧
    (f64AsI32 dx ≠ 0 → f64AsI32 dy = 0 →
      (src_event bres
        (.navigation ⟨some "mouse-scroll", px, py, b, some dx, some dy, k⟩)).actions =
        [.Scroll .Horizontal (f64AsI32 dx)]) ∧
    (f64AsI32 dx = 0 → f64AsI32 dy ≠ 0 →
      (src_event bres
        (.navigation ⟨some "mouse-scroll", px, py, b, some dx, some dy, k⟩)).actions =
        [.Scroll .Vertical (f64AsI32 dy)]) ∧
    (f64AsI32 dx ≠ 0 → f64AsI32 dy ≠ 0 →
      (src_event bres
        (.navigation ⟨some "mouse-scroll", px, py, b, some dx, some dy, k⟩)).actions =
        [.Scroll .Horizontal (f64AsI32 dx), .Scroll .Vertical (f64AsI32 dy)]) := by
  refine ⟨rfl, fun h0 h1 => ?_, fun h0 h1 => ?_, fun h0 h1 => ?_, fun h0 h1 => ?_⟩ <;>
    simp [src_event, h0, h1]

/-- Closed instance of C6 at deltas `(0, -5.2)`, discharging the
nonzero-axis hypotheses there: exactly one action, `Scroll(Vertical, -5)`. -/
theorem c6_scroll_actions_witness :
    (src_event allOk
        (.navigation ⟨some "mouse-scroll", none, none, none, some (mkRat 0 1),
          some (mkRat (-26) 5), none⟩)).actions = [.Scroll .Vertical (-5)] := by
  have h := (c6_scroll_actions allOk none none none (mkRat 0 1)
    (mkRat (-26) 5) none).2.2.2.1 (by decide) (by decide)
  rw [h]
  decide

/-- C7: a mouse-button event with `button` in `{1,2,3}` yields in both
shapes exactly the pair mapping 1 to Left, 2 to Middle, 3 to Right, with
the direction taken from the press/release discriminator suffix; a
`button` outside `[1,3]` yields no action and is not an error — the
filter forwards the event and the standalone handler returns
normally. -/
theorem c7_mouse_button (bres : InputAction → Bool) (press : Bool) (b : Int)
    (px py : Option ℚ) (dx dy : Option ℚ) (k : Option String) :
    (b = 1 →
      (src_event bres (.navigation ⟨some (if press then "mouse-button-press"
          else "mouse-button-release"), px, py, some b, dx, dy, k⟩)).actions =
        [.MouseButton .Left (if press then .Press else .Release)] ∧
      (handle_remotecontrol_event bres (.navigation
          ⟨some (if press then "mouse-button-press" else "mouse-button-release"),
            px, py, some b, dx, dy, k⟩)).actions =
        [.MouseButton .Left (if press then .Press else .Release)]) ∧
    (b = 2 →
      (src_event bres (.navigation ⟨some (if press then "mouse-button-press"
          else "mouse-button-release"), px, py, some b, dx, dy, k⟩)).actions =
        [.MouseButton .Middle (if press then .Press else .Release)] ∧
      (handle_remotecontrol_event bres (.navigation
          ⟨some (if press then "mouse-button-press" else "mouse-button-release"),
            px, py, some b, dx, dy, k⟩)).actions =
        [.MouseButton .Middle (if press then .Press else .Release)]) ∧
    (b = 3 →
      (src_event bres (.navigation ⟨some (if press then "mouse-button-press"
          else "mouse-button-release"), px, py, some b, dx, dy, k⟩)).actions =
        [.MouseButton .Right (if press then .Press else .Release)] ∧
      (handle_remotecontrol_event bres (.navigation
          ⟨some (if press then "mouse-button-press" else "mouse-button-release"),
            px, py, some b, dx, dy, k⟩)).actions =
        [.MouseButton .Right (if press then .Press else .Release)]) ∧
    (b < 1 ∨ 3 < b →
      src_event bres (.navigation ⟨some (if press then "mouse-button-press"
          else "mouse-button-release"), px, py, some b, dx, dy, k⟩) =
        ⟨[], .forwarded, []⟩ ∧
      handle_remotecontrol_event bres (.navigation
          ⟨some (if press then "mouse-button-press" else "mouse-button-release"),
            px, py, some b, dx, dy, k⟩) =
        ⟨[], .returned, []⟩) := by
  refine ⟨fun h => ?_, fun h => ?_, fun h => ?_, fun h => ?_⟩ <;>
    subst_vars <;> cases press <;>
      first
      | exact ⟨rfl, rfl⟩
      | (constructor <;>
          simp [src_event, handle_remotecontrol_event]
            <;> omega)

/-- Closed instance of C7, discharging its button-value hypotheses at
`button = 1` (press), `button = 3` (release), and the out-of-range
`button = 9`. -/
theorem c7_mouse_button_witness :
    (src_event allOk (.navigation ⟨some "mouse-button-press", none, none,
        some 1, none, none, none⟩)).actions =
      [.MouseButton .Left .Press] ∧
    (handle_remotecontrol_event allOk (.navigation
        ⟨some "mouse-button-release", none, none, some 3, none, none,
          none⟩)).actions = [.MouseButton .Right .Release] ∧
    src_event allOk (.navigation ⟨some "mouse-button-press", none, none,
        some 9, none, none, none⟩) = ⟨[], .forwarded, []⟩ := by
  refine ⟨((c7_mouse_button allOk true 1 none none none none none).1
      (by decide)).1, ?_, ?_⟩
  · exact ((c7_mouse_button allOk false 3 none none none none
      none).2.2.1 (by decide)).2
  · exact ((c7_mouse_button allOk true 9 none none none none
      none).2.2.2 (by omega)).1

/-- C1: for key-press/key-release events carrying a `key` string, the key
is resolved by a case-sensitive exact lookup in the closed named-key
table first; when the table has no entry, an empty string is the
empty-key decode error, more than one Unicode scalar is the
multi-character decode error, and exactly one scalar becomes the
printable key — in both shapes, with the press/release direction always
taken from the discriminator suffix. -/
theorem c1_key_translation (bres : InputAction → Bool) (press : Bool)
    (s : String) (px py : Option ℚ) (b : Option Int) (dx dy : Option ℚ) :
    (∀ k, keyFromName s = some k →
      (src_event bres (.navigation ⟨some (if press then "key-press"
          else "key-release"), px, py, b, dx, dy, some s⟩)).actions =
        [.KeyAct k (if press then .Press else .Release)] ∧
      (handle_remotecontrol_event bres (.navigation ⟨some (if press then
          "key-press" else "key-release"), px, py, b, dx, dy, some s⟩)).actions =
        [.KeyAct k (if press then .Press else .Release)]) ∧
    (keyFromName s = none → s.data = [] →
      src_event bres (.navigation ⟨some (if press then "key-press"
          else "key-release"), px, py, b, dx, dy, some s⟩) =
        ⟨[], .consumed, [.emptyKey]⟩ ∧
      handle_remotecontrol_event bres (.navigation ⟨some (if press then
          "key-press" else "key-release"), px, py, b, dx, dy, some s⟩) =
        ⟨[], .returned, [.emptyKey]⟩) ∧
    (∀ c : Char, keyFromName s = none → s.data = [c] →
      (src_event bres (.navigation ⟨some (if press then "key-press"
          else "key-release"), px, py, b, dx, dy, some s⟩)).actions =
        [.KeyAct (.Unicode c) (if press then .Press else .Release)] ∧
      (handle_remotecontrol_event bres (.navigation ⟨some (if press then
          "key-press" else "key-release"), px, py, b, dx, dy, some s⟩)).actions =
        [.KeyAct (.Unicode c) (if press then .Press else .Release)]) ∧
    (∀ (c c2 : Char) (rest : List Char), keyFromName s = none →
      s.data = c :: c2 :: rest →
      src_event bres (.navigation ⟨some (if press then "key-press"
          else "key-release"), px, py, b, dx, dy, some s⟩) =
        ⟨[], .consumed, [.multiCharacterKey]⟩ ∧
      handle_remotecontrol_event bres (.navigation ⟨some (if press then
          "key-press" else "key-release"), px, py, b, dx, dy, some s⟩) =
        ⟨[], .returned, [.multiCharacterKey]⟩) ∧
    keyFromName "Escape" = some Key.Escape ∧
    keyFromName "escape" = none := by
  refine ⟨fun k hk => ?_, fun h0 h1 => ?_, fun c h0 h1 => ?_,
    fun c c2 rest h0 h1 => ?_, rfl, rfl⟩
  · cases press <;> constructor <;>
      simp [src_event, handle_remotecontrol_event, resolveKey, hk]
  · cases press <;> constructor <;>
      simp [src_event, handle_remotecontrol_event, resolveKey, h0, h1]
  · cases press <;> constructor <;>
      simp [src_event, handle_remotecontrol_event, resolveKey, h0, h1]
  · cases press <;> constructor <;>
      simp [src_event, handle_remotecontrol_event, resolveKey, h0, h1]

/-- Closed instance of C1 discharging each of its resolution hypotheses at
a concrete key string: a table name, the empty string, a single scalar,
and a two-scalar string. -/
theorem c1_key_translation_witness :
    (src_event allOk (.navigation ⟨some "key-press", none, none, none,
        none, none, some "Escape"⟩)).actions = [.KeyAct .Escape .Press] ∧
    src_event allOk (.navigation ⟨some "key-press", none, none, none,
        none, none, some ""⟩) = ⟨[], .consumed, [.emptyKey]⟩ ∧
    (src_event allOk (.navigation ⟨some "key-release", none, none, none,
        none, none, some "A"⟩)).actions = [.KeyAct (.Unicode 'A') .Release] ∧
    src_event allOk (.navigation ⟨some "key-press", none, none, none,
        none, none, some "AB"⟩) = ⟨[], .consumed, [.multiCharacterKey]⟩ := by
  refine ⟨((c1_key_translation allOk true "Escape" none none none none
      none).1 .Escape rfl).1, ?_, ?_, ?_⟩
  · exact ((c1_key_translation allOk true "" none none none none
      none).2.1 rfl rfl).1
  · exact ((c1_key_translation allOk false "A" none none none none
      none).2.2.1 'A' rfl rfl).1
  · exact ((c1_key_translation allOk true "AB" none none none none
      none).2.2.2.1 'A' 'B' [] rfl rfl).1

/-- Counterexample to C2 as stated: a reverse-direction mouse-scroll event
whose vertical delta truncates to `-5` is executed (one `Scroll` action
is issued) and is nevertheless forwarded further upstream, because the
scroll arm of `src_event` has no `return true` and falls through to
`sinkpad.push_event`. -/
theorem c2_scroll_forwarded_counterexample :
    src_event allOk (.navigation ⟨some "mouse-scroll", none, none, none,
        some (mkRat 0 1), some (mkRat (-26) 5), none⟩) =
      ⟨[.Scroll .Vertical (-5)], .forwarded, []⟩ := by
  decide

/-- C2 amended: in the filter shape, executed mouse-move, in-range
mouse-button, and resolvable key events are consumed; events with an
unrecognized discriminator and non-navigation events are forwarded
unchanged with no action; but an executed mouse-scroll event is the
exception — its scroll actions are issued and the event is still
forwarded upstream. -/
theorem c2_filter_event_policy (bres : InputAction → Bool) :
    (∀ (x y : ℚ) (b : Option Int) (dx dy : Option ℚ) (k : Option String),
      (src_event bres (.navigation ⟨some "mouse-move", some x, some y,
        b, dx, dy, k⟩)).outcome = .consumed) ∧
    (∀ (press : Bool) (b : Int) (px py : Option ℚ) (dx dy : Option ℚ)
        (k : Option String), 1 ≤ b → b ≤ 3 →
      (src_event bres (.navigation ⟨some (if press then "mouse-button-press"
        else "mouse-button-release"), px, py, some b, dx, dy, k⟩)).outcome =
        .consumed) ∧
    (∀ (press : Bool) (s : String) (k : Key) (px py : Option ℚ)
        (b : Option Int) (dx dy : Option ℚ), resolveKey s = .ok k →
      (src_event bres (.navigation ⟨some (if press then "key-press"
        else "key-release"), px, py, b, dx, dy, some s⟩)).outcome =
        .consumed) ∧
    (∀ (dx dy : ℚ) (px py : Option ℚ) (b : Option Int) (k : Option String),
      (src_event bres (.navigation ⟨some "mouse-scroll", px, py, b,
        some dx, some dy, k⟩)).outcome = .forwarded ∧
      (f64AsI32 dy ≠ 0 →
        (src_event bres (.navigation ⟨some "mouse-scroll", px, py, b,
          some dx, some dy, k⟩)).actions ≠ [])) ∧
    (∀ (s : NavStructure) (name : String), s.event = some name →
      name ≠ "mouse-move" → name ≠ "mouse-button-press" →
      name ≠ "mouse-button-release" → name ≠ "mouse-scroll" →
      name ≠ "key-press" → name ≠ "key-release" →
      src_event bres (.navigation s) = ⟨[], .forwarded, [.unhandledEvent]⟩) ∧
    (∀ tag : Nat, src_event bres (.other tag) =
      ⟨[], .forwarded, [.notNavigation]⟩) := by
  refine ⟨fun x y b dx dy k => rfl, fun press b px py dx dy k h1 h2 => ?_,
    fun press s k px py b dx dy hres => ?_, fun dx dy px py b k => ⟨?_, ?_⟩,
    fun s name hevt h1 h2 h3 h4 h5 h6 => ?_, fun tag => rfl⟩
  · cases press <;> simp [src_event, h1, h2]
  · cases press <;> simp [src_event, hres]
  · simp [src_event]
  · intro h
    by_cases h2 : f64AsI32 dx = 0 <;> simp [src_event, h, h2]
  · simp [src_event, hevt, h1, h2, h3, h4, h5, h6]

/-- Closed instance of C2's amended statement, discharging its hypotheses
at one concrete event of each kind. -/
theorem c2_filter_event_policy_witness :
    (src_event allOk (.navigation ⟨some "mouse-button-press", none, none,
        some 1, none, none, none⟩)).outcome = .consumed ∧
    (src_event allOk (.navigation ⟨some "key-press", none, none, none,
        none, none, some "Escape"⟩)).outcome = .consumed ∧
    (src_event allOk (.navigation ⟨some "mouse-scroll", none, none, none,
        some (mkRat 0 1), some (mkRat (-26) 5), none⟩)).actions ≠ [] ∧
    src_event allOk (.navigation ⟨some "pinch-zoom", none, none, none,
        none, none, none⟩) = ⟨[], .forwarded, [.unhandledEvent]⟩ := by
  refine ⟨(c2_filter_event_policy allOk).2.1 true 1 none none none none
      none (by decide) (by decide),
    (c2_filter_event_policy allOk).2.2.1 true "Escape" .Escape none none
      none none none rfl,
    ((c2_filter_event_policy allOk).2.2.2.1 (mkRat 0 1) (mkRat (-26) 5)
      none none none none).2 (by decide),
    (c2_filter_event_policy allOk).2.2.2.2.1
      ⟨some "pinch-zoom", none, none, none, none, none, none⟩
      "pinch-zoom" rfl (by decide) (by decide) (by decide) (by decide)
      (by decide) (by decide)⟩

/-- Counterexample to C3 as stated: a mouse-move control event missing its
`pointer_x` field makes the standalone handler panic through `.expect`,
terminating the caller, instead of logging and returning. -/
theorem c3_missing_field_panics_counterexample :
    handle_remotecontrol_event allOk (.navigation ⟨some "mouse-move",
        none, none, none, none, none, none⟩) = ⟨[], .panicked, []⟩ := by
  decide

/-- C3 amended: the standalone handler returns normally exactly when every
field it reads through `.expect` for the event's discriminator is
present — whatever the backend results are, a backend error or a `key`
decode failure (missing, empty, or multi-character `key`) is logged and
the handler returns; a missing `event` discriminator or a missing
required non-`key` field (`pointer_x`, `pointer_y`, `button`,
`delta_pointer_x`, `delta_pointer_y`) panics. -/
theorem c3_handle_outcome (bres : InputAction → Bool) (e : GstEvent) :
    (handle_remotecontrol_event bres e).outcome =
      (if requiredFieldsPresent e then .returned else .panicked) := by
  cases e with
  | other tag => rfl
  | navigation s =>
    cases hevt : s.event with
    | none => simp [handle_remotecontrol_event, requiredFieldsPresent, hevt]
    | some name =>
      by_cases h1 : name = "mouse-move"
      · subst h1
        cases hx : s.pointer_x <;> cases hy : s.pointer_y <;>
          simp [handle_remotecontrol_event, requiredFieldsPresent, hevt, hx, hy]
      · by_cases h2 : name = "mouse-button-press" ∨ name = "mouse-button-release"
        · cases hb : s.button with
          | none =>
            simp [handle_remotecontrol_event, requiredFieldsPresent,
              hevt, h1, h2, hb]
          | some b =>
            by_cases hr : 1 ≤ b ∧ b ≤ 3 <;>
              simp [handle_remotecontrol_event, requiredFieldsPresent,
                hevt, h1, h2, hb, hr]
        · by_cases h3 : name = "mouse-scroll"
          · subst h3
            cases hdx : s.delta_pointer_x <;> cases hdy : s.delta_pointer_y <;>
              simp [handle_remotecontrol_event, requiredFieldsPresent,
                hevt, h1, h2, hdx, hdy]
          · by_cases h4 : name = "key-press" ∨ name = "key-release"
            · cases hk : s.key with
              | none =>
                simp [handle_remotecontrol_event, requiredFieldsPresent,
                  hevt, h1, h2, h3, h4, hk]
              | some ks =>
                cases hres : resolveKey ks <;>
                  simp [handle_remotecontrol_event, requiredFieldsPresent,
                    hevt, h1, h2, h3, h4, hk, hres]
            · simp [handle_remotecontrol_event, requiredFieldsPresent,
                hevt, h1, h2, h3, h4]

end RemoteCtl
